import Mathlib

/-!
Shallow embedding of two Check Units of the wordpress-seo content-analysis
library: the readability assessment ListAssessment (list presence) and the
SEO assessment TextCompetingLinksAssessment (competing links), together with
the value objects and helpers they consume.  Definitions follow
packages/yoastseo/src/scoring/assessments/readability/ListAssessment.js and
the TextCompetingLinksAssessment source; collaborators that are not part of
the analysed sources are modelled from the specification and marked as such.
-/

/-- Modelled from the spec: the Content Unit (Paper) is an immutable value
object holding the text, the target keyphrase and locale metadata (spec
section 3).  The Paper class itself is not among the analysed sources. -/
structure Paper where
  text : String
  keyword : String
  synonyms : List String := []
  locale : String := "en_US"
  deriving DecidableEq

/-- Accessor for the stored text of the paper. -/
def Paper.getText (p : Paper) : String :=
  p.text

/-- Modelled from the spec: the derived predicate hasText is a pure function
of the stored fields (spec section 4.1); the empty string is valid content
but does not count as having text. -/
def Paper.hasText (p : Paper) : Bool :=
  p.text != ""

/-- Modelled from the spec: the derived predicate hasKeyphrase (hasKeyword)
is a pure function of the stored fields (spec section 4.1). -/
def Paper.hasKeyword (p : Paper) : Bool :=
  p.keyword != ""

/-- Modelled from the spec: a Result holds a score that is a number or
absent, a feedback text and a marks flag (spec section 3).  A freshly
constructed AssessmentResult has no score, empty text and no marks.  The
AssessmentResult class itself is not among the analysed sources. -/
structure AssessmentResult where
  score : Option Int := none
  text : String := ""
  hasMarks : Bool := false
  deriving DecidableEq

/-- Sets the score of an assessment result. -/
def AssessmentResult.setScore (r : AssessmentResult) (s : Int) : AssessmentResult :=
  { r with score := some s }

/-- Sets the feedback text of an assessment result. -/
def AssessmentResult.setText (r : AssessmentResult) (t : String) : AssessmentResult :=
  { r with text := t }

/-- Sets the marks flag of an assessment result. -/
def AssessmentResult.setHasMarks (r : AssessmentResult) (b : Bool) : AssessmentResult :=
  { r with hasMarks := b }

/-- Result object of the getAnchorsWithKeyphrase research. -/
structure AnchorsWithKeyphraseResult where
  anchorsWithKeyphraseCount : Nat
  deriving DecidableEq

/-- Modelled from the spec: the Researcher is a registry mapping a
computation name to a per-Content-Unit memoised result; lookup of a name
that was never registered fails with UnknownComputationError (spec section
4.2).  Only the single research consumed by the assessments under analysis
is carried as data. -/
structure Researcher where
  registered : List String
  anchorsWithKeyphrase : AnchorsWithKeyphraseResult
  deriving DecidableEq

/-- Modelled from the spec: lookup of a registered computation; a miss is
the error UnknownComputationError (spec sections 4.2 and 7). -/
def Researcher.getResearch (r : Researcher) (name : String) :
    Except String AnchorsWithKeyphraseResult :=
  if r.registered.contains name then Except.ok r.anchorsWithKeyphrase
  else Except.error "UnknownComputationError"

/-- Modelled from the spec: the default Researcher comes preloaded with the
built-in computations (spec sections 4.2 and 6), among them the
getAnchorsWithKeyphrase research consumed by TextCompetingLinksAssessment. -/
def defaultResearcher (count : Nat) : Researcher :=
  { registered := ["getAnchorsWithKeyphrase"]
    anchorsWithKeyphrase := { anchorsWithKeyphraseCount := count } }

/-- Modelled from the spec: helper building the opening anchor tag of a
documentation link; helpers are external collaborators consumed through
narrow interfaces (spec section 1). -/
def createAnchorOpeningTag (url : String) : String :=
  "<a href=\"" ++ url ++ "\" target=\"_blank\">"

/-- Modelled from the spec: the HTML-block removal helper
(languageProcessing/helpers/html/htmlParser is not among the analysed
sources).  The spec constrains it only to be a total text transformation
under which the list markup of the section-8 scenario survives; it is
modelled as the identity on the text. -/
def removeHtmlBlocks (text : String) : String :=
  text

/-- Modelled from the spec: the base-class helper deciding that a unit has
enough content for assessment (typical condition: has enough words, spec
section 4.3); modelled as at least fifty characters remaining after
HTML-block removal. -/
def hasEnoughContentForAssessment (paper : Paper) : Bool :=
  decide (50 ≤ (removeHtmlBlocks paper.getText).length)

/-- Characters matched by the dot of a JavaScript regular expression: every
character except the four line terminators. -/
def jsDot (ch : Char) : Bool :=
  !(ch == '\n' || ch == '\r' || ch == '\u2028' || ch == '\u2029')

/-- Holds when the list starts with a literal closing ul or ol tag, the
fragment matched by the closing-tag part of the list regular expression. -/
def closeTagHere : List Char → Bool
  | a :: b :: c :: d :: e :: _ =>
      a == '<' && b == '/' && (c == 'u' || c == 'o') && d == 'l' && e == '>'
  | _ => false

/-- Existence semantics of the fragment matching any characters, line
terminators included, followed by a closing ul or ol tag. -/
def closeTagAfter : List Char → Bool
  | [] => false
  | ch :: rest => closeTagHere (ch :: rest) || closeTagAfter rest

/-- Existence semantics of the fragment matching any non-line-terminator
characters, then a closing angle bracket, then anything up to a closing ul
or ol tag. -/
def dotThenCloseTag : List Char → Bool
  | [] => false
  | ch :: rest => (ch == '>' && closeTagAfter rest) || (jsDot ch && dotThenCloseTag rest)

/-- Holds when the list starts with a literal opening ul or ol tag fragment,
the leading part of the list regular expression. -/
def openTagAt : List Char → Bool
  | a :: b :: c :: _ =>
      a == '<' && (b == 'u' || b == 'o') && c == 'l'
  | _ => false

/-- Existence semantics of the whole list regular expression as used by an
unanchored test: some position of the text starts an opening ul or ol tag
fragment whose remainder matches the dot part, a closing bracket and a later
closing ul or ol tag. -/
def listRegexTest : List Char → Bool
  | [] => false
  | ch :: rest =>
      (openTagAt (ch :: rest) && dotThenCloseTag (rest.drop 2)) || listRegexTest rest

/-- Scores option of the list assessment configuration. -/
structure ListScores where
  bad : Int
  good : Int
  deriving DecidableEq

/-- Merged configuration of ListAssessment. -/
structure ListAssessmentConfig where
  urlTitle : String
  urlCallToAction : String
  scores : ListScores
  unknown : List (String × String)
  deriving DecidableEq

/-- Partial scores option as passed to the ListAssessment constructor: each
leaf may be missing. -/
structure ListScoresInput where
  bad : Option Int := none
  good : Option Int := none
  deriving DecidableEq

/-- Configuration record as passed to the ListAssessment constructor: every
recognised option may be missing, and the record may carry options unknown
to the assessment. -/
structure ListAssessmentConfigInput where
  urlTitle : Option String := none
  urlCallToAction : Option String := none
  scores : Option ListScoresInput := none
  unknown : List (String × String) := []
  deriving DecidableEq

/-- Built-in default configuration of ListAssessment, as constructed in its
constructor. -/
def ListAssessment.defaultConfig : ListAssessmentConfig :=
  { urlTitle := createAnchorOpeningTag "https://yoa.st/shopify38"
    urlCallToAction := createAnchorOpeningTag "https://yoa.st/shopify39"
    scores := { bad := 3, good := 9 }
    unknown := [] }

/-- Deep merge of a partial configuration over the built-in defaults, as
performed by the lodash merge call in the ListAssessment constructor: a
missing option falls back to its default, the nested scores record merges
per leaf, and options unknown to the assessment are kept in the merged
record. -/
def ListAssessment.mergeConfig (config : ListAssessmentConfigInput) : ListAssessmentConfig :=
  { urlTitle := config.urlTitle.getD ListAssessment.defaultConfig.urlTitle
    urlCallToAction := config.urlCallToAction.getD ListAssessment.defaultConfig.urlCallToAction
    scores :=
      { bad := (config.scores.bind ListScoresInput.bad).getD 3
        good := (config.scores.bind ListScoresInput.good).getD 9 }
    unknown := config.unknown }

/-- Instance state of ListAssessment: the merged configuration and
identifier set by the constructor, and the scratch field textContainsList
assigned during getResult (absent until a first run). -/
structure ListAssessment where
  _config : ListAssessmentConfig
  identifier : String := "listsPresence"
  textContainsList : Option Bool := none
  deriving DecidableEq

/-- Constructor of ListAssessment: merges the given configuration over the
built-in defaults and sets the identifier. -/
def ListAssessment.create (config : ListAssessmentConfigInput) : ListAssessment :=
  { _config := ListAssessment.mergeConfig config }

/-- Checks whether there is an ordered or unordered list in the text: tests
the list regular expression against the paper text after HTML-block
removal. -/
def ListAssessment.findList (_a : ListAssessment) (paper : Paper) : Bool :=
  listRegexTest (removeHtmlBlocks paper.getText).toList

/-- Intermediate result of calculateResult: a score and a feedback text. -/
structure CalculatedScore where
  score : Int
  resultText : String
  deriving DecidableEq

/-- Calculates the result from the availability of lists in the text, read
from the textContainsList instance field; an unassigned field counts as
false, as in the truthiness test of the source. -/
def ListAssessment.calculateResult (a : ListAssessment) : CalculatedScore :=
  if a.textContainsList.getD false then
    { score := a._config.scores.good
      resultText :=
        a._config.urlTitle ++ "Lists" ++ "</a>"
          ++ ": There is at least one list on this page. Great!" }
  else
    { score := a._config.scores.bad
      resultText :=
        a._config.urlTitle ++ "Lists" ++ "</a>"
          ++ ": No lists appear on this page. "
          ++ a._config.urlCallToAction
          ++ "Add at least one ordered or unordered list" ++ "</a>" ++ "!" }

/-- Executes the assessment: stores the list-presence flag on the instance,
computes the calculated score from it and returns a fresh AssessmentResult
carrying that score and text, together with the updated instance. -/
def ListAssessment.getResult (a : ListAssessment) (paper : Paper) :
    AssessmentResult × ListAssessment :=
  let a1 : ListAssessment := { a with textContainsList := some (ListAssessment.findList a paper) }
  let calculatedScore := ListAssessment.calculateResult a1
  let assessmentResult : AssessmentResult := {}
  (AssessmentResult.setText (AssessmentResult.setScore assessmentResult calculatedScore.score)
      calculatedScore.resultText,
    a1)

/-- Applicability of ListAssessment: the paper has enough content for
assessment. -/
def ListAssessment.isApplicable (_a : ListAssessment) (paper : Paper) : Bool :=
  hasEnoughContentForAssessment paper

/-- State-passing form of the applicability check: the source body only
reads the paper, and contains no assignment, so the instance, the paper and
the researcher pass through unchanged. -/
def ListAssessment.isApplicableS (a : ListAssessment) (paper : Paper) (researcher : Researcher) :
    Bool × ListAssessment × Paper × Researcher :=
  (ListAssessment.isApplicable a paper, a, paper, researcher)

/-- Parameters option of the competing-links configuration. -/
structure TextCompetingLinksParameters where
  recommendedMaximum : Nat
  deriving DecidableEq

/-- Scores option of the competing-links configuration. -/
structure TextCompetingLinksScores where
  bad : Int
  deriving DecidableEq

/-- Merged configuration of TextCompetingLinksAssessment. -/
structure TextCompetingLinksConfig where
  parameters : TextCompetingLinksParameters
  scores : TextCompetingLinksScores
  urlTitle : String
  urlCallToAction : String
  unknown : List (String × String)
  deriving DecidableEq

/-- Partial parameters option as passed to the constructor. -/
structure TextCompetingLinksParametersInput where
  recommendedMaximum : Option Nat := none
  deriving DecidableEq

/-- Partial scores option as passed to the constructor. -/
structure TextCompetingLinksScoresInput where
  bad : Option Int := none
  deriving DecidableEq

/-- Configuration record as passed to the TextCompetingLinksAssessment
constructor: every recognised option may be missing, and the record may
carry options unknown to the assessment. -/
structure TextCompetingLinksConfigInput where
  parameters : Option TextCompetingLinksParametersInput := none
  scores : Option TextCompetingLinksScoresInput := none
  urlTitle : Option String := none
  urlCallToAction : Option String := none
  unknown : List (String × String) := []
  deriving DecidableEq

/-- Built-in default configuration of TextCompetingLinksAssessment, as
constructed in its constructor. -/
def TextCompetingLinksAssessment.defaultConfig : TextCompetingLinksConfig :=
  { parameters := { recommendedMaximum := 0 }
    scores := { bad := 2 }
    urlTitle := createAnchorOpeningTag "https://yoa.st/34l"
    urlCallToAction := createAnchorOpeningTag "https://yoa.st/34m"
    unknown := [] }

/-- Deep merge of a partial configuration over the built-in defaults, as
performed by the lodash merge call in the TextCompetingLinksAssessment
constructor. -/
def TextCompetingLinksAssessment.mergeConfig (config : TextCompetingLinksConfigInput) :
    TextCompetingLinksConfig :=
  { parameters :=
      { recommendedMaximum :=
          (config.parameters.bind TextCompetingLinksParametersInput.recommendedMaximum).getD 0 }
    scores := { bad := (config.scores.bind TextCompetingLinksScoresInput.bad).getD 2 }
    urlTitle := config.urlTitle.getD TextCompetingLinksAssessment.defaultConfig.urlTitle
    urlCallToAction :=
      config.urlCallToAction.getD TextCompetingLinksAssessment.defaultConfig.urlCallToAction
    unknown := config.unknown }

/-- Instance state of TextCompetingLinksAssessment: the merged configuration
and identifier set by the constructor, and the scratch field
totalAnchorsWithKeyphrase assigned during getResult (absent until a first
run). -/
structure TextCompetingLinksAssessment where
  _config : TextCompetingLinksConfig
  identifier : String := "textCompetingLinks"
  totalAnchorsWithKeyphrase : Option Nat := none
  deriving DecidableEq

/-- Constructor of TextCompetingLinksAssessment: merges the given
configuration over the built-in defaults and sets the identifier. -/
def TextCompetingLinksAssessment.create (config : TextCompetingLinksConfigInput) :
    TextCompetingLinksAssessment :=
  { _config := TextCompetingLinksAssessment.mergeConfig config }

/-- Returns a result based on the number of links: a bad score with feedback
when the stored count exceeds the recommended maximum, and nothing
otherwise.  An unassigned count compares as false, as the numeric comparison
of the source does on an undefined field. -/
def TextCompetingLinksAssessment.calculateResult (a : TextCompetingLinksAssessment) :
    Option CalculatedScore :=
  match a.totalAnchorsWithKeyphrase with
  | some n =>
      if a._config.parameters.recommendedMaximum < n then
        some
          { score := a._config.scores.bad
            resultText :=
              a._config.urlTitle ++ "Link keyphrase" ++ "</a>"
                ++ ": You\x27re linking to another page with the words you want this page to rank for. "
                ++ a._config.urlCallToAction ++ "Don\x27t do that" ++ "</a>" ++ "!" }
      else none
  | none => none

/-- Executes the assessment: fetches the getAnchorsWithKeyphrase research; a
lookup failure propagates as the error and leaves the instance unchanged.
On success the count is stored on the instance; when calculateResult yields
nothing the fresh AssessmentResult is returned as is (score absent), and
otherwise the score, the text and hasMarks false are set on it. -/
def TextCompetingLinksAssessment.getResult (a : TextCompetingLinksAssessment) (_paper : Paper)
    (researcher : Researcher) :
    Except String AssessmentResult × TextCompetingLinksAssessment :=
  match researcher.getResearch "getAnchorsWithKeyphrase" with
  | Except.error e => (Except.error e, a)
  | Except.ok research =>
      let a1 : TextCompetingLinksAssessment :=
        { a with totalAnchorsWithKeyphrase := some research.anchorsWithKeyphraseCount }
      let assessmentResult : AssessmentResult := {}
      match TextCompetingLinksAssessment.calculateResult a1 with
      | none => (Except.ok assessmentResult, a1)
      | some calculatedResult =>
          (Except.ok
              (AssessmentResult.setHasMarks
                (AssessmentResult.setText
                  (AssessmentResult.setScore assessmentResult calculatedResult.score)
                  calculatedResult.resultText)
                false),
            a1)

/-- Applicability of TextCompetingLinksAssessment: the paper has text and a
keyword. -/
def TextCompetingLinksAssessment.isApplicable (_a : TextCompetingLinksAssessment)
    (paper : Paper) : Bool :=
  paper.hasText && paper.hasKeyword

/-- State-passing form of the applicability check: the source body only
reads the paper, and contains no assignment, so the instance, the paper and
the researcher pass through unchanged. -/
def TextCompetingLinksAssessment.isApplicableS (a : TextCompetingLinksAssessment) (paper : Paper)
    (researcher : Researcher) :
    Bool × TextCompetingLinksAssessment × Paper × Researcher :=
  (TextCompetingLinksAssessment.isApplicable a paper, a, paper, researcher)

/-- Concrete Content Unit of the section-8 list scenario. -/
def scenarioListPaper : Paper :=
  { text := "<ul><li>a</li></ul> dogs", keyword := "dogs" }

/-- Concrete Content Unit long enough to have enough content for assessment
and carrying a keyphrase. -/
def demoLongPaper : Paper :=
  { text := "<ul><li>one</li><li>two</li><li>three</li></ul> and quite some more text about dogs"
    keyword := "dogs" }

/-- Concrete Content Unit whose opening list tag is separated from its
closing bracket by a line terminator. -/
def newlineListPaper : Paper :=
  { text := "<ul\n></ul>", keyword := "dogs" }

lemma closeTagHere_decomp {l : List Char} (h : closeTagHere l = true) :
    ∃ ch d, (ch = 'u' ∨ ch = 'o') ∧ l = '<' :: '/' :: ch :: 'l' :: '>' :: d := by
  unfold closeTagHere at h
  split at h
  · rename_i a b c d e rest
    simp only [Bool.and_eq_true, Bool.or_eq_true, beq_iff_eq] at h
    obtain ⟨⟨⟨⟨ha, hb⟩, hc⟩, hd⟩, he⟩ := h
    subst ha; subst hb; subst hd; subst he
    exact ⟨c, rest, hc, rfl⟩
  · simp at h

lemma closeTagHere_cons (ch : Char) (d : List Char) (hc : ch = 'u' ∨ ch = 'o') :
    closeTagHere ('<' :: '/' :: ch :: 'l' :: '>' :: d) = true := by
  rcases hc with h | h <;> subst h <;> rfl

lemma closeTagAfter_iff (l : List Char) :
    closeTagAfter l = true ↔
      ∃ c ch d, (ch = 'u' ∨ ch = 'o') ∧ l = c ++ '<' :: '/' :: ch :: 'l' :: '>' :: d := by
  induction l with
  | nil => simp [closeTagAfter]
  | cons x rest ih =>
    constructor
    · intro h
      simp only [closeTagAfter, Bool.or_eq_true] at h
      rcases h with h | h
      · obtain ⟨ch, d, hc, heq⟩ := closeTagHere_decomp h
        exact ⟨[], ch, d, hc, heq⟩
      · obtain ⟨c, ch, d, hc, heq⟩ := ih.mp h
        exact ⟨x :: c, ch, d, hc, by simp [heq]⟩
    · rintro ⟨c, ch, d, hc, heq⟩
      simp only [closeTagAfter, Bool.or_eq_true]
      rcases c with _ | ⟨y, c⟩
      · simp only [List.nil_append] at heq
        injection heq with h1 h2
        subst h1; subst h2
        exact Or.inl (closeTagHere_cons ch d hc)
      · simp only [List.cons_append] at heq
        injection heq with h1 h2
        subst h1; subst h2
        exact Or.inr (ih.mpr ⟨c, ch, d, hc, rfl⟩)

lemma dotThenCloseTag_iff (l : List Char) :
    dotThenCloseTag l = true ↔
      ∃ b rest, (∀ x ∈ b, jsDot x = true) ∧ closeTagAfter rest = true ∧ l = b ++ '>' :: rest := by
  induction l with
  | nil => simp [dotThenCloseTag]
  | cons x t ih =>
    constructor
    · intro h
      simp only [dotThenCloseTag, Bool.or_eq_true, Bool.and_eq_true, beq_iff_eq] at h
      rcases h with ⟨hx, hc⟩ | ⟨hd, h⟩
      · exact ⟨[], t, by simp, hc, by simp [hx]⟩
      · obtain ⟨b, rest, hb, hc, heq⟩ := ih.mp h
        exact ⟨x :: b, rest, List.forall_mem_cons.mpr ⟨hd, hb⟩, hc, by simp [heq]⟩
    · rintro ⟨b, rest, hb, hc, heq⟩
      simp only [dotThenCloseTag, Bool.or_eq_true, Bool.and_eq_true, beq_iff_eq]
      rcases b with _ | ⟨y, b⟩
      · simp only [List.nil_append] at heq
        injection heq with h1 h2
        subst h1; subst h2
        exact Or.inl ⟨rfl, hc⟩
      · simp only [List.cons_append] at heq
        injection heq with h1 h2
        subst h1; subst h2
        obtain ⟨hd, hb⟩ := List.forall_mem_cons.mp hb
        exact Or.inr ⟨hd, ih.mpr ⟨b, rest, hb, hc, rfl⟩⟩

lemma openTagAt_cons (ch : Char) (rest : List Char) (hc : ch = 'u' ∨ ch = 'o') :
    openTagAt ('<' :: ch :: 'l' :: rest) = true := by
  rcases hc with h | h <;> subst h <;> rfl

lemma listRegexTest_iff (l : List Char) :
    listRegexTest l = true ↔
      ∃ a ch rest, (ch = 'u' ∨ ch = 'o') ∧ dotThenCloseTag rest = true ∧
        l = a ++ '<' :: ch :: 'l' :: rest := by
  induction l with
  | nil => simp [listRegexTest]
  | cons x t ih =>
    constructor
    · intro h
      simp only [listRegexTest, Bool.or_eq_true, Bool.and_eq_true] at h
      rcases h with ⟨ho, hd⟩ | h
      · rcases t with _ | ⟨c2, t2⟩
        · simp [openTagAt] at ho
        · rcases t2 with _ | ⟨c3, t3⟩
          · simp [openTagAt] at ho
          · simp only [openTagAt, Bool.and_eq_true, Bool.or_eq_true, beq_iff_eq] at ho
            obtain ⟨⟨hx, hb⟩, hc⟩ := ho
            subst hx; subst hc
            simp only [List.drop_succ_cons, List.drop_zero] at hd
            exact ⟨[], c2, t3, hb, hd, rfl⟩
      · obtain ⟨a, ch, rest, hc, hd, heq⟩ := ih.mp h
        exact ⟨x :: a, ch, rest, hc, hd, by simp [heq]⟩
    · rintro ⟨a, ch, rest, hc, hd, heq⟩
      simp only [listRegexTest, Bool.or_eq_true, Bool.and_eq_true]
      rcases a with _ | ⟨y, a⟩
      · simp only [List.nil_append] at heq
        injection heq with h1 h2
        subst h1; subst h2
        refine Or.inl ⟨openTagAt_cons ch rest hc, ?_⟩
        simpa using hd
      · simp only [List.cons_append] at heq
        injection heq with h1 h2
        subst h1; subst h2
        exact Or.inr (ih.mpr ⟨a, ch, rest, hc, hd, rfl⟩)

lemma listRegexTest_characterisation (l : List Char) :
    listRegexTest l = true ↔
      ∃ pre ch1 mid post ch2 tail,
        (ch1 = 'u' ∨ ch1 = 'o') ∧ (ch2 = 'u' ∨ ch2 = 'o') ∧
        (∀ x ∈ mid, jsDot x = true) ∧
        l = pre ++ '<' :: ch1 :: 'l' ::
          (mid ++ '>' :: (post ++ '<' :: '/' :: ch2 :: 'l' :: '>' :: tail)) := by
  rw [listRegexTest_iff]
  constructor
  · rintro ⟨a, ch, rest, hc, hd, heq⟩
    rw [dotThenCloseTag_iff] at hd
    obtain ⟨b, rest2, hb, hca, heq2⟩ := hd
    rw [closeTagAfter_iff] at hca
    obtain ⟨c, ch2, d, hc2, heq3⟩ := hca
    exact ⟨a, ch, b, c, ch2, d, hc, hc2, hb, by rw [heq, heq2, heq3]⟩
  · rintro ⟨pre, ch1, mid, post, ch2, tail, hc1, hc2, hmid, heq⟩
    refine ⟨pre, ch1, mid ++ '>' :: (post ++ '<' :: '/' :: ch2 :: 'l' :: '>' :: tail),
      hc1, ?_, heq⟩
    rw [dotThenCloseTag_iff]
    exact ⟨mid, post ++ '<' :: '/' :: ch2 :: 'l' :: '>' :: tail, hmid,
      (closeTagAfter_iff _).mpr ⟨post, ch2, tail, hc2, rfl⟩, rfl⟩

lemma getResearch_ok {r : Researcher} {name : String} {research : AnchorsWithKeyphraseResult}
    (h : Researcher.getResearch r name = Except.ok research) :
    research = r.anchorsWithKeyphrase := by
  unfold Researcher.getResearch at h
  split at h
  · injection h with h1
    exact h1.symm
  · exact Except.noConfusion h

lemma textGetResult_config (a : TextCompetingLinksAssessment) (p : Paper) (r : Researcher) :
    ((TextCompetingLinksAssessment.getResult a p r).2)._config = a._config := by
  simp only [TextCompetingLinksAssessment.getResult]
  split
  · rfl
  · split <;> rfl

lemma textGetResult_fst_congr (a b : TextCompetingLinksAssessment)
    (hpar : a._config.parameters = b._config.parameters)
    (hsc : a._config.scores = b._config.scores)
    (hut : a._config.urlTitle = b._config.urlTitle)
    (huc : a._config.urlCallToAction = b._config.urlCallToAction)
    (p q : Paper) (r : Researcher) :
    (TextCompetingLinksAssessment.getResult a p r).1
      = (TextCompetingLinksAssessment.getResult b q r).1 := by
  simp only [TextCompetingLinksAssessment.getResult]
  cases hr : Researcher.getResearch r "getAnchorsWithKeyphrase" with
  | error e => rfl
  | ok research =>
    simp only [TextCompetingLinksAssessment.calculateResult, hpar, hsc, hut, huc]
    split <;> rfl

lemma calculateResult_some {a : TextCompetingLinksAssessment} {c : CalculatedScore}
    (h : TextCompetingLinksAssessment.calculateResult a = some c) :
    c.score = a._config.scores.bad
    ∧ ∀ n, a.totalAnchorsWithKeyphrase = some n →
        a._config.parameters.recommendedMaximum < n := by
  unfold TextCompetingLinksAssessment.calculateResult at h
  split at h
  · rename_i n hn
    split at h
    · rename_i hlt
      injection h with h1
      refine ⟨by rw [← h1], ?_⟩
      intro m hm
      rw [hn] at hm
      injection hm with hm
      rwa [← hm]
    · exact Option.noConfusion h
  · exact Option.noConfusion h

lemma textGetResult_spec (a : TextCompetingLinksAssessment) (p : Paper) (r : Researcher)
    (res : AssessmentResult) (a1 : TextCompetingLinksAssessment)
    (h : TextCompetingLinksAssessment.getResult a p r = (Except.ok res, a1)) :
    res.hasMarks = false
    ∧ (r.anchorsWithKeyphrase.anchorsWithKeyphraseCount
          ≤ a._config.parameters.recommendedMaximum → res.score = none)
    ∧ (res.score = none ∨ res.score = some a._config.scores.bad) := by
  simp only [TextCompetingLinksAssessment.getResult] at h
  split at h
  · exact Except.noConfusion (congrArg Prod.fst h)
  · rename_i research heq
    split at h
    · have hres : ({} : AssessmentResult) = res := Except.ok.inj (congrArg Prod.fst h)
      subst hres
      exact ⟨rfl, fun _ => rfl, Or.inl rfl⟩
    · rename_i calculated heq2
      have hres :
          AssessmentResult.setHasMarks
              (AssessmentResult.setText
                (AssessmentResult.setScore {} calculated.score) calculated.resultText)
              false
            = res :=
        Except.ok.inj (congrArg Prod.fst h)
      subst hres
      obtain ⟨hsc2, hcount⟩ := calculateResult_some heq2
      have hlt := hcount research.anchorsWithKeyphraseCount rfl
      have hres2 : research = r.anchorsWithKeyphrase := getResearch_ok heq
      subst hres2
      exact ⟨rfl, fun hle => absurd hlt (Nat.not_lt.mpr hle), Or.inr (congrArg some hsc2)⟩

lemma listGetResult_score (a : ListAssessment) (paper : Paper) :
    (ListAssessment.getResult a paper).1.score
      = some (if ListAssessment.findList a paper then a._config.scores.good
          else a._config.scores.bad) := by
  cases hf : ListAssessment.findList a paper <;>
    simp [ListAssessment.getResult, ListAssessment.calculateResult, hf,
      AssessmentResult.setText, AssessmentResult.setScore]

/-- C1: for the Content Unit with text containing an unordered list followed
by the word dogs and with keyphrase dogs, ListAssessment.getResult produces
a Result whose score equals the good threshold of the configuration, which
is 9 under the default configuration, and whose hasMarks is false. -/
theorem claim_C1 :
    (ListAssessment.getResult (ListAssessment.create {}) scenarioListPaper).1.score
        = some (ListAssessment.create {})._config.scores.good
      ∧ (ListAssessment.create {})._config.scores.good = 9
      ∧ (ListAssessment.getResult (ListAssessment.create {}) scenarioListPaper).1.hasMarks
        = false := by
  decide

/-- C2: for both Check Units, running getResult on one Content Unit and then
on a second yields for the second the same Result as a freshly constructed
instance with the same configuration: the scratch fields textContainsList and
totalAnchorsWithKeyphrase leave no residue that affects a later run. -/
theorem claim_C2 :
    (∀ (config : ListAssessmentConfigInput) (p1 p2 : Paper),
        (ListAssessment.getResult
            (ListAssessment.getResult (ListAssessment.create config) p1).2 p2).1
          = (ListAssessment.getResult (ListAssessment.create config) p2).1)
    ∧ (∀ (config : TextCompetingLinksConfigInput) (p1 p2 : Paper) (r1 r2 : Researcher),
        (TextCompetingLinksAssessment.getResult
            (TextCompetingLinksAssessment.getResult
              (TextCompetingLinksAssessment.create config) p1 r1).2 p2 r2).1
          = (TextCompetingLinksAssessment.getResult
              (TextCompetingLinksAssessment.create config) p2 r2).1) := by
  constructor
  · intro config p1 p2
    rfl
  · intro config p1 p2 r1 r2
    have h := textGetResult_config (TextCompetingLinksAssessment.create config) p1 r1
    exact textGetResult_fst_congr _ _
      (congrArg TextCompetingLinksConfig.parameters h)
      (congrArg TextCompetingLinksConfig.scores h)
      (congrArg TextCompetingLinksConfig.urlTitle h)
      (congrArg TextCompetingLinksConfig.urlCallToAction h)
      p2 p2 r2

/-- C3: for both Check Units, every option missing from the configuration
record passed to the constructor takes its built-in default value in the
merged configuration, and options unknown to the unit have no effect on any
Result the unit produces. -/
theorem claim_C3 :
    ((∀ (cc : Option String) (s : Option ListScoresInput) (u : List (String × String)),
        (ListAssessment.mergeConfig ⟨none, cc, s, u⟩).urlTitle
          = ListAssessment.defaultConfig.urlTitle)
      ∧ (∀ (ct : Option String) (s : Option ListScoresInput) (u : List (String × String)),
          (ListAssessment.mergeConfig ⟨ct, none, s, u⟩).urlCallToAction
            = ListAssessment.defaultConfig.urlCallToAction)
      ∧ (∀ (ct cc : Option String) (u : List (String × String)),
          (ListAssessment.mergeConfig ⟨ct, cc, none, u⟩).scores
            = ListAssessment.defaultConfig.scores)
      ∧ (∀ (ct cc : Option String) (og : Option Int) (u : List (String × String)),
          (ListAssessment.mergeConfig ⟨ct, cc, some ⟨none, og⟩, u⟩).scores.bad
            = ListAssessment.defaultConfig.scores.bad)
      ∧ (∀ (ct cc : Option String) (ob : Option Int) (u : List (String × String)),
          (ListAssessment.mergeConfig ⟨ct, cc, some ⟨ob, none⟩, u⟩).scores.good
            = ListAssessment.defaultConfig.scores.good))
    ∧ (∀ (config : ListAssessmentConfigInput) (u : List (String × String)) (paper : Paper),
        (ListAssessment.getResult
            (ListAssessment.create
              { urlTitle := config.urlTitle, urlCallToAction := config.urlCallToAction,
                scores := config.scores, unknown := u })
            paper).1
          = (ListAssessment.getResult (ListAssessment.create config) paper).1)
    ∧ ((∀ (s : Option TextCompetingLinksScoresInput) (ct cc : Option String)
          (u : List (String × String)),
          (TextCompetingLinksAssessment.mergeConfig ⟨none, s, ct, cc, u⟩).parameters
            = TextCompetingLinksAssessment.defaultConfig.parameters)
      ∧ (∀ (s : Option TextCompetingLinksScoresInput) (ct cc : Option String)
          (u : List (String × String)),
          (TextCompetingLinksAssessment.mergeConfig
              ⟨some ⟨none⟩, s, ct, cc, u⟩).parameters.recommendedMaximum
            = TextCompetingLinksAssessment.defaultConfig.parameters.recommendedMaximum)
      ∧ (∀ (pr : Option TextCompetingLinksParametersInput) (ct cc : Option String)
          (u : List (String × String)),
          (TextCompetingLinksAssessment.mergeConfig ⟨pr, none, ct, cc, u⟩).scores
            = TextCompetingLinksAssessment.defaultConfig.scores)
      ∧ (∀ (pr : Option TextCompetingLinksParametersInput) (ct cc : Option String)
          (u : List (String × String)),
          (TextCompetingLinksAssessment.mergeConfig ⟨pr, some ⟨none⟩, ct, cc, u⟩).scores.bad
            = TextCompetingLinksAssessment.defaultConfig.scores.bad)
      ∧ (∀ (pr : Option TextCompetingLinksParametersInput)
          (s : Option TextCompetingLinksScoresInput) (cc : Option String)
          (u : List (String × String)),
          (TextCompetingLinksAssessment.mergeConfig ⟨pr, s, none, cc, u⟩).urlTitle
            = TextCompetingLinksAssessment.defaultConfig.urlTitle)
      ∧ (∀ (pr : Option TextCompetingLinksParametersInput)
          (s : Option TextCompetingLinksScoresInput) (ct : Option String)
          (u : List (String × String)),
          (TextCompetingLinksAssessment.mergeConfig ⟨pr, s, ct, none, u⟩).urlCallToAction
            = TextCompetingLinksAssessment.defaultConfig.urlCallToAction))
    ∧ (∀ (config : TextCompetingLinksConfigInput) (u : List (String × String)) (paper : Paper)
        (r : Researcher),
        (TextCompetingLinksAssessment.getResult
            (TextCompetingLinksAssessment.create
              { parameters := config.parameters, scores := config.scores,
                urlTitle := config.urlTitle, urlCallToAction := config.urlCallToAction,
                unknown := u })
            paper r).1
          = (TextCompetingLinksAssessment.getResult
              (TextCompetingLinksAssessment.create config) paper r).1) := by
  refine ⟨⟨fun _ _ _ => rfl, fun _ _ _ => rfl, fun _ _ _ => rfl,
      fun _ _ _ _ => rfl, fun _ _ _ _ => rfl⟩,
    fun config u paper => rfl,
    ⟨fun _ _ _ _ => rfl, fun _ _ _ _ => rfl, fun _ _ _ _ => rfl,
      fun _ _ _ _ => rfl, fun _ _ _ _ => rfl, fun _ _ _ _ => rfl⟩,
    fun config u paper r => ?_⟩
  exact textGetResult_fst_congr
    (TextCompetingLinksAssessment.create
      { parameters := config.parameters, scores := config.scores,
        urlTitle := config.urlTitle, urlCallToAction := config.urlCallToAction, unknown := u })
    (TextCompetingLinksAssessment.create config)
    rfl rfl rfl rfl paper paper r

/-- C4: for both Check Units, getResult is deterministic: a second call with
the same Content Unit and the same researcher cache state, made on the
instance as the first call left it, returns an equal Result. -/
theorem claim_C4 :
    (∀ (a : ListAssessment) (paper : Paper),
        (ListAssessment.getResult (ListAssessment.getResult a paper).2 paper).1
          = (ListAssessment.getResult a paper).1)
    ∧ (∀ (a : TextCompetingLinksAssessment) (paper : Paper) (r : Researcher),
        (TextCompetingLinksAssessment.getResult
            (TextCompetingLinksAssessment.getResult a paper r).2 paper r).1
          = (TextCompetingLinksAssessment.getResult a paper r).1) := by
  constructor
  · intro a paper
    rfl
  · intro a paper r
    have h := textGetResult_config a paper r
    exact textGetResult_fst_congr _ _
      (congrArg TextCompetingLinksConfig.parameters h)
      (congrArg TextCompetingLinksConfig.scores h)
      (congrArg TextCompetingLinksConfig.urlTitle h)
      (congrArg TextCompetingLinksConfig.urlCallToAction h)
      paper paper r

/-- C5: for every Content Unit on which isApplicable holds, getResult of
ListAssessment terminates with a Result, and getResult of
TextCompetingLinksAssessment terminates with an ok Result whenever the
getAnchorsWithKeyphrase research is registered with the researcher, as it is
with the default researcher. -/
theorem claim_C5 :
    (∀ (a : ListAssessment) (paper : Paper),
        ListAssessment.isApplicable a paper = true →
          ∃ res a1, ListAssessment.getResult a paper = (res, a1))
    ∧ (∀ (a : TextCompetingLinksAssessment) (paper : Paper) (r : Researcher),
        TextCompetingLinksAssessment.isApplicable a paper = true →
          r.registered.contains "getAnchorsWithKeyphrase" = true →
            ∃ res a1,
              TextCompetingLinksAssessment.getResult a paper r = (Except.ok res, a1)) := by
  constructor
  · intro a paper _
    exact ⟨_, _, rfl⟩
  · intro a paper r _ hreg
    simp only [TextCompetingLinksAssessment.getResult, Researcher.getResearch, hreg, if_pos]
    split
    · exact ⟨_, _, rfl⟩
    · exact ⟨_, _, rfl⟩

/-- C5 witness: at a concrete applicable Content Unit and the default
researcher, both assessments produce a Result. -/
theorem claim_C5_witness :
    (∃ res a1, ListAssessment.getResult (ListAssessment.create {}) demoLongPaper = (res, a1))
    ∧ (∃ res a1,
        TextCompetingLinksAssessment.getResult (TextCompetingLinksAssessment.create {})
            demoLongPaper (defaultResearcher 1) = (Except.ok res, a1)) :=
  ⟨claim_C5.1 (ListAssessment.create {}) demoLongPaper (by decide),
    claim_C5.2 (TextCompetingLinksAssessment.create {}) demoLongPaper (defaultResearcher 1)
      (by decide) (by decide)⟩

/-- C6: under the default configuration, ListAssessment only ever scores 3 or
9, TextCompetingLinksAssessment only ever scores 2 or leaves the score
absent, and all these values lie in the internal scoring scale from 0 to
9. -/
theorem claim_C6 :
    (∀ paper : Paper,
        (ListAssessment.getResult (ListAssessment.create {}) paper).1.score = some 3
          ∨ (ListAssessment.getResult (ListAssessment.create {}) paper).1.score = some 9)
    ∧ (∀ (paper : Paper) (r : Researcher) (res : AssessmentResult)
          (a1 : TextCompetingLinksAssessment),
        TextCompetingLinksAssessment.getResult (TextCompetingLinksAssessment.create {}) paper r
            = (Except.ok res, a1) →
          res.score = none ∨ res.score = some 2)
    ∧ (∀ s : Int, s = 3 ∨ s = 9 ∨ s = 2 → 0 ≤ s ∧ s ≤ 9) := by
  refine ⟨?_, ?_, ?_⟩
  · intro paper
    simp only [listGetResult_score]
    cases hf : ListAssessment.findList (ListAssessment.create {}) paper
    · exact Or.inl rfl
    · exact Or.inr rfl
  · intro paper r res a1 h
    exact (textGetResult_spec _ _ _ _ _ h).2.2
  · intro s hs
    rcases hs with h | h | h <;> subst h <;> exact ⟨by norm_num, by norm_num⟩

/-- C6 witness: the statement instantiated at concrete inputs, the second
part at the default researcher reporting no competing anchors, where the
returned Result is the fresh one with absent score. -/
theorem claim_C6_witness :
    ((ListAssessment.getResult (ListAssessment.create {}) demoLongPaper).1.score = some 3
      ∨ (ListAssessment.getResult (ListAssessment.create {}) demoLongPaper).1.score = some 9)
    ∧ (({} : AssessmentResult).score = none ∨ ({} : AssessmentResult).score = some 2)
    ∧ (0 ≤ (3 : Int) ∧ (3 : Int) ≤ 9) :=
  ⟨claim_C6.1 demoLongPaper,
    claim_C6.2.1 demoLongPaper (defaultResearcher 0) {}
      { TextCompetingLinksAssessment.create {} with totalAnchorsWithKeyphrase := some 0 }
      (by rfl),
    claim_C6.2.2 3 (Or.inl rfl)⟩

/-- C7: for every Content Unit with empty text,
TextCompetingLinksAssessment.isApplicable returns false, whatever the
keyphrase and the remaining fields. -/
theorem claim_C7 :
    ∀ (a : TextCompetingLinksAssessment) (keyword : String) (synonyms : List String)
      (locale : String),
      TextCompetingLinksAssessment.isApplicable a
          { text := "", keyword := keyword, synonyms := synonyms, locale := locale }
        = false :=
  fun _ _ _ _ => rfl

/-- C8: the state-passing translations of both applicability checks return a
boolean and leave the Check Unit instance, the Content Unit and the
researcher unchanged. -/
theorem claim_C8 :
    (∀ (a : ListAssessment) (paper : Paper) (researcher : Researcher),
        ListAssessment.isApplicableS a paper researcher
          = (ListAssessment.isApplicable a paper, a, paper, researcher))
    ∧ (∀ (a : TextCompetingLinksAssessment) (paper : Paper) (researcher : Researcher),
        TextCompetingLinksAssessment.isApplicableS a paper researcher
          = (TextCompetingLinksAssessment.isApplicable a paper, a, paper, researcher)) :=
  ⟨fun _ _ _ => rfl, fun _ _ _ => rfl⟩

/-- C9: whenever TextCompetingLinksAssessment.getResult returns ok, the
Result has no score as soon as the reported anchor count is at most the
configured recommended maximum, its only scored outcome is the configured
bad score, and its hasMarks is always false. -/
theorem claim_C9 :
    ∀ (a : TextCompetingLinksAssessment) (paper : Paper) (r : Researcher)
      (res : AssessmentResult) (a1 : TextCompetingLinksAssessment),
      TextCompetingLinksAssessment.getResult a paper r = (Except.ok res, a1) →
        (r.anchorsWithKeyphrase.anchorsWithKeyphraseCount
            ≤ a._config.parameters.recommendedMaximum → res.score = none)
        ∧ (res.score = none ∨ res.score = some a._config.scores.bad)
        ∧ res.hasMarks = false := by
  intro a paper r res a1 h
  obtain ⟨h1, h2, h3⟩ := textGetResult_spec a paper r res a1 h
  exact ⟨h2, h3, h1⟩

/-- C9 witness: at the default configuration and the default researcher
reporting no competing anchors, the returned Result is the fresh one: absent
score and no marks. -/
theorem claim_C9_witness :
    ((defaultResearcher 0).anchorsWithKeyphrase.anchorsWithKeyphraseCount
        ≤ (TextCompetingLinksAssessment.create {})._config.parameters.recommendedMaximum →
      ({} : AssessmentResult).score = none)
    ∧ (({} : AssessmentResult).score = none
        ∨ ({} : AssessmentResult).score
            = some (TextCompetingLinksAssessment.create {})._config.scores.bad)
    ∧ ({} : AssessmentResult).hasMarks = false :=
  claim_C9 (TextCompetingLinksAssessment.create {}) demoLongPaper (defaultResearcher 0) {}
    { TextCompetingLinksAssessment.create {} with totalAnchorsWithKeyphrase := some 0 }
    (by rfl)

/-- C10 (amended): findList returns true exactly when the text after
HTML-block removal contains an opening ul or ol tag fragment followed, after
any characters none of which is a line terminator and then a closing angle
bracket, by a closing ul or ol tag anywhere later in the text; mismatched
pairs and arbitrary intervening content after the bracket still match. -/
theorem claim_C10 (a : ListAssessment) (paper : Paper) :
    ListAssessment.findList a paper = true ↔
      ∃ pre ch1 mid post ch2 tail,
        (ch1 = 'u' ∨ ch1 = 'o') ∧ (ch2 = 'u' ∨ ch2 = 'o') ∧
        (∀ x ∈ mid, jsDot x = true) ∧
        (removeHtmlBlocks paper.getText).toList
          = pre ++ '<' :: ch1 :: 'l' ::
              (mid ++ '>' :: (post ++ '<' :: '/' :: ch2 :: 'l' :: '>' :: tail)) :=
  listRegexTest_characterisation (removeHtmlBlocks paper.getText).toList

/-- C10 counterexample: for the Content Unit whose text separates the
opening list tag from its closing bracket by a newline, the text does
contain an opening tag followed by any characters, a closing bracket and a
later closing tag, yet findList returns false: the claim as stated, with
arbitrary characters before the bracket, is false. -/
theorem claim_C10_counterexample :
    ¬ (ListAssessment.findList (ListAssessment.create {}) newlineListPaper = true ↔
        ∃ pre ch1 mid post ch2 tail,
          (ch1 = 'u' ∨ ch1 = 'o') ∧ (ch2 = 'u' ∨ ch2 = 'o') ∧
          (removeHtmlBlocks newlineListPaper.getText).toList
            = pre ++ '<' :: ch1 :: 'l' ::
                (mid ++ '>' :: (post ++ '<' :: '/' :: ch2 :: 'l' :: '>' :: tail))) := by
  intro h
  have hx : ∃ pre ch1 mid post ch2 tail,
      (ch1 = 'u' ∨ ch1 = 'o') ∧ (ch2 = 'u' ∨ ch2 = 'o') ∧
      (removeHtmlBlocks newlineListPaper.getText).toList
        = pre ++ '<' :: ch1 :: 'l' ::
            (mid ++ '>' :: (post ++ '<' :: '/' :: ch2 :: 'l' :: '>' :: tail)) :=
    ⟨[], 'u', ['\n'], [], 'u', [], Or.inl rfl, Or.inl rfl, by decide⟩
  have hf : ListAssessment.findList (ListAssessment.create {}) newlineListPaper = false := by
    decide
  rw [h.mpr hx] at hf
  exact Bool.noConfusion hf
